import Mathlib

/-!
Verification of the finagent merge-and-persist engine and article normalizer.

The development shallowly embeds the Python modules
`finagent/raw_storage.py`, `finagent/cli.py` (merge_processed_data),
`finagent/models/news.py` (ArticleModel) and the per-article mapping loop of
`finagent/providers/gnews_api.py`.

Modelling conventions:
* JSON values are the inductive `Json`; parsed JSON objects are association
  lists `List (String × Json)`.  Python dicts hold unique keys, so key lookup
  (first match) and key assignment (replace first occurrence or append) agree
  with Python semantics on every document this code reads or writes.
* The file system is a map from path strings to optional file contents; a
  file either holds parseable JSON (`FileContent.good`) or bytes on which
  `json.load` raises `JSONDecodeError` (`FileContent.bad`).
* `datetime.now().isoformat()` is passed in as an explicit `now : String`.
* Python exceptions that escape a function are `Except.error` values;
  exceptions caught inside the function (the `JSONDecodeError`/`KeyError`
  handler in the merge functions) are handled in the corresponding branch.
-/

/-- JSON values as produced by Python's `json` module. -/
inductive Json where
  | null : Json
  | bool (b : Bool) : Json
  | num (n : Int) : Json
  | str (s : String) : Json
  | arr (elems : List Json) : Json
  | obj (entries : List (String × Json)) : Json

/-- Python dict key lookup (`d[k]` / `d.get(k)`): first matching key.
Dicts parsed from JSON have unique keys, so first-match agrees with Python. -/
def lookupKey (k : String) : List (String × Json) → Option Json
  | [] => none
  | (k', v) :: rest => if k' = k then some v else lookupKey k rest

/-- Python dict key assignment (`d[k] = v`): replace the value of an existing
key in place, otherwise append the new key at the end (insertion order). -/
def setKey (k : String) (v : Json) : List (String × Json) → List (String × Json)
  | [] => [(k, v)]
  | (k', v') :: rest => if k' = k then (k, v) :: rest else (k', v') :: setKey k v rest

/-- Contents of a file on disk: JSON that `json.load` parses to `j`, or bytes
on which `json.load` raises `JSONDecodeError`. -/
inductive FileContent where
  | good (j : Json) : FileContent
  | bad : FileContent

/-- The file system: a map from path to file contents. -/
def FS : Type := String → Option FileContent

/-- A file system with no files. -/
def emptyFS : FS := fun _ => none

/-- Writing a file (`open(path, "w")` + dump): point update of the map. -/
def updateFS (fs : FS) (p : String) (c : FileContent) : FS :=
  fun q => if q = p then some c else fs q

/-- Python exceptions relevant to the embedded code. -/
inductive PyErr where
  | fileNotFound : PyErr
  | jsonDecodeErr : PyErr
  | typeErr : PyErr
deriving DecidableEq, Repr

/-- Python `str.upper()` modelled over the ASCII range used by ticker
symbols: uppercase every character. -/
def pyUpper (s : String) : String := String.mk (s.data.map Char.toUpper)

/-- The file path used by `store_raw_responses`, `load_raw_responses` and
`merge_responses`: `os.path.join(directory, f"{stock_name.upper()}.json")`. -/
def rawPath (directory stock_name : String) : String :=
  directory ++ "/" ++ pyUpper stock_name ++ ".json"

/-- The document dict `store_raw_responses` builds (raw_storage.py lines
52–57): `{"timestamp": now, "stock": STOCK, "newsapi": newsapi or {},
"gnews": gnews or {}}`, in insertion order.  No `history` key. -/
def freshRawDoc (stock_name : String) (newsapi_response gnews_response : Option Json)
    (now : String) : List (String × Json) :=
  [ ("timestamp", .str now)
  , ("stock", .str (pyUpper stock_name))
  , ("newsapi", newsapi_response.getD (.obj []))
  , ("gnews", gnews_response.getD (.obj [])) ]

/-- `raw_storage.store_raw_responses` (lines 22–63): writes `freshRawDoc` to
`rawPath` and returns the path.  Always succeeds. -/
def store_raw_responses (stock_name : String) (newsapi_response gnews_response : Option Json)
    (directory : String) (now : String) (fs : FS) : String × FS :=
  let filepath := rawPath directory stock_name
  let data : Json := .obj (freshRawDoc stock_name newsapi_response gnews_response now)
  (filepath, updateFS fs filepath (.good data))

/-- `raw_storage.load_raw_responses` (lines 66–99): raises `FileNotFoundError`
when the file is absent, `json.load`'s `JSONDecodeError` when it does not
parse, and otherwise returns the parsed document. -/
def load_raw_responses (stock_name : String) (directory : String) (fs : FS) :
    Except PyErr Json :=
  let filepath := rawPath directory stock_name
  match fs filepath with
  | none => .error .fileNotFound
  | some .bad => .error .jsonDecodeErr
  | some (.good j) => .ok j

/-- The in-memory update `merge_responses` performs on an existing parsed
document dict `e` (raw_storage.py lines 172–197): build the new entry, migrate
a history-less document by snapshotting its current top level, append the new
entry to history, then overwrite `timestamp` and any slot whose argument is
not `None`.  `existing_data["history"].append(...)` on a non-list value
raises an uncaught `AttributeError`, modelled as `typeErr`. -/
def mergeDoc (e : List (String × Json)) (newsapi_response gnews_response : Option Json)
    (now : String) : Except PyErr (List (String × Json)) :=
  let new_entry : Json := .obj
    [ ("timestamp", .str now)
    , ("newsapi", newsapi_response.getD (.obj []))
    , ("gnews", gnews_response.getD (.obj [])) ]
  let e1 :=
    match lookupKey "history" e with
    | none =>
      setKey "history" (.arr
        [ .obj [ ("timestamp", (lookupKey "timestamp" e).getD (.str "unknown"))
               , ("newsapi", (lookupKey "newsapi" e).getD (.obj []))
               , ("gnews", (lookupKey "gnews" e).getD (.obj [])) ] ]) e
    | some _ => e
  match lookupKey "history" e1 with
  | some (.arr l) =>
    let e2 := setKey "history" (.arr (l ++ [new_entry])) e1
    let e3 := setKey "timestamp" (.str now) e2
    let e4 := match newsapi_response with
      | some v => setKey "newsapi" v e3
      | none => e3
    let e5 := match gnews_response with
      | some v => setKey "gnews" v e4
      | none => e4
    .ok e5
  | _ => .error .typeErr

/-- `raw_storage.merge_responses` (lines 129–216).  If the file is absent, or
its contents raise `JSONDecodeError` (caught together with `KeyError` at line
205), fall through to `store_raw_responses`.  If it parses to a dict, apply
`mergeDoc` and write the result back.  If it parses to a non-dict JSON value,
the dict operations in the `try` block raise an uncaught
`TypeError`/`AttributeError`, modelled as `typeErr`. -/
def merge_responses (stock_name : String) (newsapi_response gnews_response : Option Json)
    (directory : String) (now : String) (fs : FS) : Except PyErr (String × FS) :=
  let filepath := rawPath directory stock_name
  match fs filepath with
  | some (.good (.obj e)) =>
    (mergeDoc e newsapi_response gnews_response now).map
      (fun d => (filepath, updateFS fs filepath (.good (.obj d))))
  | some (.good _) => .error .typeErr
  | _ => .ok (store_raw_responses stock_name newsapi_response gnews_response directory now fs)

/-- The in-memory update `merge_processed_data` performs on an existing parsed
document dict `e` with a parsed-as-dict `processed_data` `pd`
(cli.py lines 41–67): build the new entry from `pd` with per-key defaults,
migrate a history-less document, append the new entry, then overwrite
`company`, `article_count`, `timestamp` and `articles` at the top level. -/
def mergeProcessedDoc (e : List (String × Json)) (company_name : String)
    (pd : List (String × Json)) (now : String) : Except PyErr (List (String × Json)) :=
  let new_entry : Json := .obj
    [ ("company", (lookupKey "company" pd).getD (.str company_name))
    , ("article_count", (lookupKey "article_count" pd).getD (.num 0))
    , ("timestamp", (lookupKey "timestamp" pd).getD (.str now))
    , ("articles", (lookupKey "articles" pd).getD (.arr [])) ]
  let e1 :=
    match lookupKey "history" e with
    | none =>
      setKey "history" (.arr
        [ .obj [ ("company", (lookupKey "company" e).getD (.str company_name))
               , ("article_count", (lookupKey "article_count" e).getD (.num 0))
               , ("timestamp", (lookupKey "timestamp" e).getD (.str "unknown"))
               , ("articles", (lookupKey "articles" e).getD (.arr [])) ] ]) e
    | some _ => e
  match lookupKey "history" e1 with
  | some (.arr l) =>
    let e2 := setKey "history" (.arr (l ++ [new_entry])) e1
    let e3 := setKey "company" (.str company_name) e2
    let e4 := setKey "article_count" ((lookupKey "article_count" pd).getD (.num 0)) e3
    let e5 := setKey "timestamp" ((lookupKey "timestamp" pd).getD (.str now)) e4
    let e6 := setKey "articles" ((lookupKey "articles" pd).getD (.arr [])) e5
    .ok e6
  | _ => .error .typeErr

/-- `cli.merge_processed_data` (lines 14–88).  If the file exists and parses
to a dict, merge via `mergeProcessedDoc` (a non-dict `processed_data` would
make `processed_data.get` raise an uncaught `AttributeError`).  If the file
exists but parses to a non-dict, the dict operations raise uncaught
exceptions.  If the file is absent, or its contents raise `JSONDecodeError`
(caught at line 75), write `processed_data` to the file verbatim as JSON —
no key is added or defaulted. -/
def merge_processed_data (filename : String) (company_name : String) (processed_data : Json)
    (now : String) (fs : FS) : Except PyErr (String × FS) :=
  match fs filename with
  | some (.good (.obj e)) =>
    match processed_data with
    | .obj pd =>
      (mergeProcessedDoc e company_name pd now).map
        (fun d => (filename, updateFS fs filename (.good (.obj d))))
    | _ => .error .typeErr
  | some (.good _) => .error .typeErr
  | _ => .ok (filename, updateFS fs filename (.good processed_data))

/-! ## Article normalizer (`finagent/models/news.py`, `finagent/providers/gnews_api.py`) -/

/-- `models/news.py` `ArticleModel`: a pydantic model with a required string
`title`, four optional string fields, and an optional nested source dict of
type `Optional[Dict[str, Optional[str]]]`.  There is no `source_name` field. -/
structure ArticleModel where
  title : String
  description : Option String
  content : Option String
  url : Option String
  source : Option (List (String × Option String))
  published_at : Option String
deriving Repr

/-- Pydantic validation of an `Optional[str]` field value: `None` and strings
are accepted, other present values are rejected (no coercion is modelled;
the claims below only exercise version-independent cases). -/
def asOptStr : Json → Except String (Option String)
  | .null => .ok none
  | .str s => .ok (some s)
  | _ => .error "value is not an optional string"

/-- Pydantic validation of an optional `Optional[str]` field: an absent field
becomes `None`. -/
def asOptStrField : Option Json → Except String (Option String)
  | none => .ok none
  | some j => asOptStr j

/-- Pydantic validation of the required `str` field `title`: `None` is
rejected in every pydantic version. -/
def asStr : Json → Except String String
  | .str s => .ok s
  | _ => .error "title is not a string"

/-- Pydantic validation of the values of a source dict, entry by entry. -/
def asSourceEntries : List (String × Json) → Except String (List (String × Option String))
  | [] => .ok []
  | kv :: rest => do
    let v ← asOptStr kv.2
    let l ← asSourceEntries rest
    .ok ((kv.1, v) :: l)

/-- Pydantic validation of one `Optional[Dict[str, Optional[str]]]` source
value. -/
def asSource : Option Json → Except String (Option (List (String × Option String)))
  | none => .ok none
  | some .null => .ok none
  | some (.obj kvs) => (asSourceEntries kvs).map some
  | some _ => .error "source is not a dict"

/-- `ArticleModel.from_dict` (news.py lines 14–24): read each field with
`dict.get` (missing `title` defaults to `"No title"`; a key present with
value `None` yields `None`, not the default), then construct the pydantic
model, whose field validation can fail. -/
def ArticleModel.from_dict (article_dict : List (String × Json)) :
    Except String ArticleModel := do
  let t ← asStr ((lookupKey "title" article_dict).getD (.str "No title"))
  let d ← asOptStrField (lookupKey "description" article_dict)
  let c ← asOptStrField (lookupKey "content" article_dict)
  let u ← asOptStrField (lookupKey "url" article_dict)
  let s ← asSource (lookupKey "source" article_dict)
  let p ← asOptStrField (lookupKey "publishedAt" article_dict)
  .ok ⟨t, d, c, u, s, p⟩

/-- Serialization of an `Optional[str]` back to JSON. -/
def optStrJson : Option String → Json
  | none => .null
  | some s => .str s

/-- `ArticleModel.to_dict` (news.py lines 43–52): the six keys of the
serialized article; the source dict stays nested under key `"source"`. -/
def ArticleModel.to_dict (m : ArticleModel) : Json :=
  .obj
    [ ("title", .str m.title)
    , ("description", optStrJson m.description)
    , ("content", optStrJson m.content)
    , ("url", optStrJson m.url)
    , ("source", match m.source with
        | none => .null
        | some kvs => .obj (kvs.map (fun kv => (kv.1, optStrJson kv.2))))
    , ("published_at", optStrJson m.published_at) ]

/-- Lookup of a key in a JSON value, defined when the value is an object. -/
def jsonLookup (j : Json) (k : String) : Option Json :=
  match j with
  | .obj kvs => lookupKey k kvs
  | _ => none

/-- `article.get('source', {}).get('name', 'Unknown')` from the gnews mapping
(gnews_api.py line 74): absent source defaults to `{}` and then to
`"Unknown"`; a present non-dict source makes the second `.get` raise an
uncaught `AttributeError`. -/
def gnewsSourceName (article : List (String × Json)) : Except String Json :=
  match lookupKey "source" article with
  | none => .ok (.str "Unknown")
  | some (.obj s) => .ok ((lookupKey "name" s).getD (.str "Unknown"))
  | some _ => .error "AttributeError"

/-- The `article_data` dict built for each gnews article
(gnews_api.py lines 69–76): every key is present, missing raw fields become
`None` (or `"No title"` for the title), and the source is rebuilt as the
nested one-key dict `{'name': ...}`. -/
def gnewsArticleData (article : List (String × Json)) :
    Except String (List (String × Json)) := do
  let nm ← gnewsSourceName article
  .ok
    [ ("title", (lookupKey "title" article).getD (.str "No title"))
    , ("description", (lookupKey "description" article).getD .null)
    , ("content", (lookupKey "content" article).getD .null)
    , ("url", (lookupKey "url" article).getD .null)
    , ("source", .obj [("name", nm)])
    , ("publishedAt", (lookupKey "publishedAt" article).getD .null) ]

/-- Normalization of one gnews provider record: build `article_data` and feed
it to `ArticleModel.from_dict` (gnews_api.py line 77). -/
def gnewsNormalize (article : List (String × Json)) : Except String ArticleModel := do
  let ad ← gnewsArticleData article
  ArticleModel.from_dict ad

/-! ## Helper notions and lemmas -/

/-- A parsed document is mergeable when its `history` key, if present, holds
a JSON array — the only shape on which `list.append` works. -/
def histOk (e : List (String × Json)) : Prop :=
  lookupKey "history" e = none ∨ ∃ l, lookupKey "history" e = some (.arr l)

/-- The new history entry `merge_responses` builds on each call. -/
def newEntry (newsapi_response gnews_response : Option Json) (now : String) : Json :=
  .obj [ ("timestamp", .str now)
       , ("newsapi", newsapi_response.getD (.obj []))
       , ("gnews", gnews_response.getD (.obj [])) ]

/-- The history list of the document just before the new entry is appended:
the existing list, or the one-element migration snapshot of the current
top-level state when `history` is absent. -/
def histInit (e : List (String × Json)) : List Json :=
  match lookupKey "history" e with
  | some (.arr l) => l
  | _ => [ .obj [ ("timestamp", (lookupKey "timestamp" e).getD (.str "unknown"))
                , ("newsapi", (lookupKey "newsapi" e).getD (.obj []))
                , ("gnews", (lookupKey "gnews" e).getD (.obj [])) ] ]

/-- The document `mergeDoc` produces on a mergeable input, written as an
explicit update chain (migration, history append, timestamp, conditional
slot overwrites). -/
def mergedDoc (e : List (String × Json)) (napi gn : Option Json) (now : String) :
    List (String × Json) :=
  let e1 := match lookupKey "history" e with
    | none => setKey "history" (.arr (histInit e)) e
    | some _ => e
  let e2 := setKey "history" (.arr (histInit e ++ [newEntry napi gn now])) e1
  let e3 := setKey "timestamp" (.str now) e2
  let e4 := match napi with
    | some v => setKey "newsapi" v e3
    | none => e3
  match gn with
  | some v => setKey "gnews" v e4
  | none => e4

/-- The value a top-level slot held before a merge, as `merge_responses`
default-fills it: the stored value for a parsed dict document, and the empty
object for a missing or unparseable file (the fresh-write default). -/
def priorSlot (fs : FS) (p k : String) : Option Json :=
  match fs p with
  | some (.good (.obj e)) => lookupKey k e
  | _ => some (.obj [])

/-- A concrete history-less stored document, used to instantiate theorems
with hypotheses. -/
def wDoc : List (String × Json) :=
  [ ("timestamp", .str "t0")
  , ("stock", .str "AAPL")
  , ("newsapi", .obj [("a", .num 1)])
  , ("gnews", .obj [("b", .num 2)]) ]

/-- A concrete file system holding `wDoc` at the path of symbol `AAPL`. -/
def wFS : FS := updateFS emptyFS (rawPath "data" "aapl") (.good (.obj wDoc))

/-- The number of entries in a document's `history` array, when present. -/
def historyLength (j : Json) : Option Nat :=
  match jsonLookup j "history" with
  | some (.arr l) => some l.length
  | _ => none

/-- Whether an `Except` result is a success. -/
def exceptIsOk {α : Type} (x : Except String α) : Bool :=
  match x with
  | .ok _ => true
  | .error _ => false

/-- A present `title` value pydantic accepts for the required `str` field. -/
def titleOk : Option Json → Bool
  | none => true
  | some (.str _) => true
  | some _ => false

/-- A present field value pydantic accepts for an `Optional[str]` field. -/
def optStrOk : Option Json → Bool
  | none => true
  | some .null => true
  | some (.str _) => true
  | some _ => false

/-- A value pydantic accepts inside the source dict (`Optional[str]`). -/
def sourceValOk : Json → Bool
  | .null => true
  | .str _ => true
  | _ => false

/-- A present `source` value pydantic accepts for
`Optional[Dict[str, Optional[str]]]`. -/
def sourceOk : Option Json → Bool
  | none => true
  | some .null => true
  | some (.obj s) => s.all (fun kv => sourceValOk kv.2)
  | some _ => false

/-- A provider record whose present fields all have the types the
`ArticleModel` declares: pydantic validation accepts it in every version. -/
def wellTypedRecord (r : List (String × Json)) : Bool :=
  titleOk (lookupKey "title" r) &&
  optStrOk (lookupKey "description" r) &&
  optStrOk (lookupKey "content" r) &&
  optStrOk (lookupKey "url" r) &&
  sourceOk (lookupKey "source" r) &&
  optStrOk (lookupKey "publishedAt" r)

theorem lookupKey_setKey_same (k : String) (v : Json) (e : List (String × Json)) :
    lookupKey k (setKey k v e) = some v := by
  induction e with
  | nil => simp [setKey, lookupKey]
  | cons kv rest ih =>
    by_cases h : kv.1 = k
    · simp [setKey, lookupKey, h]
    · simp [setKey, lookupKey, h, ih]

theorem lookupKey_setKey_ne (k k' : String) (v : Json) (e : List (String × Json))
    (h : k' ≠ k) : lookupKey k' (setKey k v e) = lookupKey k' e := by
  have h' : ¬(k = k') := fun hh => h hh.symm
  induction e with
  | nil => simp [setKey, lookupKey, h']
  | cons kv rest ih =>
    by_cases hk : kv.1 = k
    · simp [setKey, lookupKey, hk, h']
    · simp [setKey, lookupKey, hk, ih]

theorem updateFS_same (fs : FS) (p : String) (c : FileContent) :
    updateFS fs p c p = some c := by
  simp [updateFS]

theorem updateFS_ne (fs : FS) (p q : String) (c : FileContent) (h : q ≠ p) :
    updateFS fs p c q = fs q := by
  simp [updateFS, h]

/-- On a mergeable document `mergeDoc` succeeds, with result `mergedDoc`. -/
theorem mergeDoc_eq (e : List (String × Json)) (napi gn : Option Json) (now : String)
    (h : histOk e) :
    mergeDoc e napi gn now = .ok (mergedDoc e napi gn now) := by
  rcases h with h | ⟨l, h⟩
  · simp only [mergeDoc, mergedDoc, histInit, newEntry, h, lookupKey_setKey_same]
  · simp only [mergeDoc, mergedDoc, histInit, newEntry, h]

theorem mergedDoc_timestamp (e : List (String × Json)) (napi gn : Option Json)
    (now : String) :
    lookupKey "timestamp" (mergedDoc e napi gn now) = some (.str now) := by
  cases napi <;> cases gn <;>
    simp [mergedDoc, lookupKey_setKey_same, lookupKey_setKey_ne]

theorem mergedDoc_newsapi (e : List (String × Json)) (napi gn : Option Json)
    (now : String) :
    lookupKey "newsapi" (mergedDoc e napi gn now) =
      (match napi with
        | some v => some v
        | none => lookupKey "newsapi" e) := by
  cases napi <;> cases gn <;> cases hh : lookupKey "history" e <;>
    simp [mergedDoc, hh, lookupKey_setKey_same, lookupKey_setKey_ne]

theorem mergedDoc_gnews (e : List (String × Json)) (napi gn : Option Json)
    (now : String) :
    lookupKey "gnews" (mergedDoc e napi gn now) =
      (match gn with
        | some v => some v
        | none => lookupKey "gnews" e) := by
  cases napi <;> cases gn <;> cases hh : lookupKey "history" e <;>
    simp [mergedDoc, hh, lookupKey_setKey_same, lookupKey_setKey_ne]

theorem mergedDoc_history (e : List (String × Json)) (napi gn : Option Json)
    (now : String) :
    lookupKey "history" (mergedDoc e napi gn now) =
      some (.arr (histInit e ++ [newEntry napi gn now])) := by
  cases napi <;> cases gn <;>
    simp [mergedDoc, lookupKey_setKey_same, lookupKey_setKey_ne]

/-! ## Claim theorems -/

/-- C3: for every symbol and payload R1, calling `merge_responses` with
`newsapi_response = R1` when no file exists at the derived path creates a
document with no `history` key, top-level `newsapi` equal to `R1`, top-level
`gnews` equal to the empty object, and top-level `timestamp` set to the time
of the call. -/
theorem merge_absent_path_fresh_document (stock dir : String) (R1 : Json)
    (now : String) (fs : FS) (h : fs (rawPath dir stock) = none) :
    merge_responses stock (some R1) none dir now fs =
      .ok (rawPath dir stock,
        updateFS fs (rawPath dir stock) (.good (.obj (freshRawDoc stock (some R1) none now)))) ∧
    lookupKey "history" (freshRawDoc stock (some R1) none now) = none ∧
    lookupKey "newsapi" (freshRawDoc stock (some R1) none now) = some R1 ∧
    lookupKey "gnews" (freshRawDoc stock (some R1) none now) = some (.obj []) ∧
    lookupKey "timestamp" (freshRawDoc stock (some R1) none now) = some (.str now) := by
  refine ⟨?_, ?_, ?_, ?_, ?_⟩
  · simp [merge_responses, h, store_raw_responses]
  all_goals simp [freshRawDoc, lookupKey]

theorem merge_absent_path_fresh_document_witness :
    emptyFS (rawPath "data" "aapl") = none ∧
    (merge_responses "aapl" (some (.obj [("status", .str "ok")])) none "data" "T1" emptyFS =
      .ok (rawPath "data" "aapl",
        updateFS emptyFS (rawPath "data" "aapl")
          (.good (.obj (freshRawDoc "aapl" (some (.obj [("status", .str "ok")])) none "T1")))) ∧
    lookupKey "history" (freshRawDoc "aapl" (some (.obj [("status", .str "ok")])) none "T1") = none ∧
    lookupKey "newsapi" (freshRawDoc "aapl" (some (.obj [("status", .str "ok")])) none "T1") =
      some (.obj [("status", .str "ok")]) ∧
    lookupKey "gnews" (freshRawDoc "aapl" (some (.obj [("status", .str "ok")])) none "T1") =
      some (.obj []) ∧
    lookupKey "timestamp" (freshRawDoc "aapl" (some (.obj [("status", .str "ok")])) none "T1") =
      some (.str "T1")) :=
  ⟨rfl, merge_absent_path_fresh_document "aapl" "data" (.obj [("status", .str "ok")]) "T1" emptyFS rfl⟩

/-- C4: for every file whose contents fail to parse as JSON, the next
`merge_responses` call on that path does not propagate an exception: the
`JSONDecodeError` is caught and the file is overwritten with a fresh document
built only from the new payloads, and the resulting document has no
`history` key — prior content is discarded. -/
theorem merge_corrupt_file_overwrites (stock dir : String) (napi gn : Option Json)
    (now : String) (fs : FS) (h : fs (rawPath dir stock) = some .bad) :
    merge_responses stock napi gn dir now fs =
      .ok (rawPath dir stock,
        updateFS fs (rawPath dir stock) (.good (.obj (freshRawDoc stock napi gn now)))) ∧
    lookupKey "history" (freshRawDoc stock napi gn now) = none := by
  refine ⟨?_, ?_⟩
  · simp [merge_responses, h, store_raw_responses]
  · simp [freshRawDoc, lookupKey]

theorem merge_corrupt_file_overwrites_witness :
    updateFS emptyFS (rawPath "data" "msft") .bad (rawPath "data" "msft") = some .bad ∧
    (merge_responses "msft" (some (.obj [("totalResults", .num 3)])) none "data" "T2"
        (updateFS emptyFS (rawPath "data" "msft") .bad) =
      .ok (rawPath "data" "msft",
        updateFS (updateFS emptyFS (rawPath "data" "msft") .bad) (rawPath "data" "msft")
          (.good (.obj (freshRawDoc "msft" (some (.obj [("totalResults", .num 3)])) none "T2")))) ∧
    lookupKey "history" (freshRawDoc "msft" (some (.obj [("totalResults", .num 3)])) none "T2") = none) :=
  ⟨updateFS_same _ _ _,
    merge_corrupt_file_overwrites "msft" "data" (some (.obj [("totalResults", .num 3)])) none "T2"
      (updateFS emptyFS (rawPath "data" "msft") .bad) (updateFS_same _ _ _)⟩

/-- C5: for every `merge_responses` call on an existing well-formed document
in which one of the two slot arguments is `None`, the top-level value of that
slot in the resulting document is unchanged from its pre-merge value, while
the other slot and the top-level `timestamp` are overwritten. -/
theorem merge_none_slot_retained (stock dir now : String) (fs : FS)
    (e : List (String × Json)) (N G : Json)
    (hfile : fs (rawPath dir stock) = some (.good (.obj e))) (hh : histOk e) :
    (merge_responses stock none (some G) dir now fs =
        .ok (rawPath dir stock,
          updateFS fs (rawPath dir stock) (.good (.obj (mergedDoc e none (some G) now)))) ∧
      lookupKey "newsapi" (mergedDoc e none (some G) now) = lookupKey "newsapi" e ∧
      lookupKey "gnews" (mergedDoc e none (some G) now) = some G ∧
      lookupKey "timestamp" (mergedDoc e none (some G) now) = some (.str now)) ∧
    (merge_responses stock (some N) none dir now fs =
        .ok (rawPath dir stock,
          updateFS fs (rawPath dir stock) (.good (.obj (mergedDoc e (some N) none now)))) ∧
      lookupKey "gnews" (mergedDoc e (some N) none now) = lookupKey "gnews" e ∧
      lookupKey "newsapi" (mergedDoc e (some N) none now) = some N ∧
      lookupKey "timestamp" (mergedDoc e (some N) none now) = some (.str now)) := by
  refine ⟨⟨?_, ?_, ?_, ?_⟩, ⟨?_, ?_, ?_, ?_⟩⟩
  · simp [merge_responses, hfile, mergeDoc_eq e none (some G) now hh, Except.map]
  · simpa using mergedDoc_newsapi e none (some G) now
  · simpa using mergedDoc_gnews e none (some G) now
  · exact mergedDoc_timestamp e none (some G) now
  · simp [merge_responses, hfile, mergeDoc_eq e (some N) none now hh, Except.map]
  · simpa using mergedDoc_gnews e (some N) none now
  · simpa using mergedDoc_newsapi e (some N) none now
  · exact mergedDoc_timestamp e (some N) none now

theorem merge_none_slot_retained_witness :
    wFS (rawPath "data" "aapl") = some (.good (.obj wDoc)) ∧ histOk wDoc ∧
    ((merge_responses "aapl" none (some (.obj [("g", .num 8)])) "data" "tN" wFS =
        .ok (rawPath "data" "aapl",
          updateFS wFS (rawPath "data" "aapl")
            (.good (.obj (mergedDoc wDoc none (some (.obj [("g", .num 8)])) "tN")))) ∧
      lookupKey "newsapi" (mergedDoc wDoc none (some (.obj [("g", .num 8)])) "tN") =
        lookupKey "newsapi" wDoc ∧
      lookupKey "gnews" (mergedDoc wDoc none (some (.obj [("g", .num 8)])) "tN") =
        some (.obj [("g", .num 8)]) ∧
      lookupKey "timestamp" (mergedDoc wDoc none (some (.obj [("g", .num 8)])) "tN") =
        some (.str "tN")) ∧
    (merge_responses "aapl" (some (.obj [("n", .num 9)])) none "data" "tN" wFS =
        .ok (rawPath "data" "aapl",
          updateFS wFS (rawPath "data" "aapl")
            (.good (.obj (mergedDoc wDoc (some (.obj [("n", .num 9)])) none "tN")))) ∧
      lookupKey "gnews" (mergedDoc wDoc (some (.obj [("n", .num 9)])) none "tN") =
        lookupKey "gnews" wDoc ∧
      lookupKey "newsapi" (mergedDoc wDoc (some (.obj [("n", .num 9)])) none "tN") =
        some (.obj [("n", .num 9)]) ∧
      lookupKey "timestamp" (mergedDoc wDoc (some (.obj [("n", .num 9)])) none "tN") =
        some (.str "tN"))) :=
  ⟨updateFS_same _ _ _, Or.inl rfl,
    merge_none_slot_retained "aapl" "data" "tN" wFS wDoc
      (.obj [("n", .num 9)]) (.obj [("g", .num 8)]) (updateFS_same _ _ _) (Or.inl rfl)⟩

/-- C9 (implicit): for every `merge_responses` call on an existing well-formed
document where a slot argument — `newsapi_response` or `gnews_response`, or
both — is absent/`None`, the entry appended to `history` records the empty
object `{}` for each such slot, even though the top-level value of the same
slot retains its prior value — a history entry need not equal the top-level
state it supersedes or is superseded by. -/
theorem history_entry_empty_slot (stock dir now : String) (fs : FS)
    (e : List (String × Json)) (N G vN vG : Json)
    (hfile : fs (rawPath dir stock) = some (.good (.obj e))) (hh : histOk e)
    (hN : lookupKey "newsapi" e = some vN) (hG : lookupKey "gnews" e = some vG) :
    (merge_responses stock none (some G) dir now fs =
        .ok (rawPath dir stock,
          updateFS fs (rawPath dir stock) (.good (.obj (mergedDoc e none (some G) now)))) ∧
      lookupKey "history" (mergedDoc e none (some G) now) =
        some (.arr (histInit e ++
          [.obj [("timestamp", .str now), ("newsapi", .obj []), ("gnews", G)]])) ∧
      lookupKey "newsapi" (mergedDoc e none (some G) now) = some vN) ∧
    (merge_responses stock (some N) none dir now fs =
        .ok (rawPath dir stock,
          updateFS fs (rawPath dir stock) (.good (.obj (mergedDoc e (some N) none now)))) ∧
      lookupKey "history" (mergedDoc e (some N) none now) =
        some (.arr (histInit e ++
          [.obj [("timestamp", .str now), ("newsapi", N), ("gnews", .obj [])]])) ∧
      lookupKey "gnews" (mergedDoc e (some N) none now) = some vG) ∧
    (merge_responses stock none none dir now fs =
        .ok (rawPath dir stock,
          updateFS fs (rawPath dir stock) (.good (.obj (mergedDoc e none none now)))) ∧
      lookupKey "history" (mergedDoc e none none now) =
        some (.arr (histInit e ++
          [.obj [("timestamp", .str now), ("newsapi", .obj []), ("gnews", .obj [])]])) ∧
      lookupKey "newsapi" (mergedDoc e none none now) = some vN ∧
      lookupKey "gnews" (mergedDoc e none none now) = some vG) := by
  refine ⟨⟨?_, ?_, ?_⟩, ⟨?_, ?_, ?_⟩, ⟨?_, ?_, ?_, ?_⟩⟩
  · simp [merge_responses, hfile, mergeDoc_eq e none (some G) now hh, Except.map]
  · simpa [newEntry] using mergedDoc_history e none (some G) now
  · simpa [hN] using mergedDoc_newsapi e none (some G) now
  · simp [merge_responses, hfile, mergeDoc_eq e (some N) none now hh, Except.map]
  · simpa [newEntry] using mergedDoc_history e (some N) none now
  · simpa [hG] using mergedDoc_gnews e (some N) none now
  · simp [merge_responses, hfile, mergeDoc_eq e none none now hh, Except.map]
  · simpa [newEntry] using mergedDoc_history e none none now
  · simpa [hN] using mergedDoc_newsapi e none none now
  · simpa [hG] using mergedDoc_gnews e none none now

theorem history_entry_empty_slot_witness :
    wFS (rawPath "data" "aapl") = some (.good (.obj wDoc)) ∧ histOk wDoc ∧
    lookupKey "newsapi" wDoc = some (.obj [("a", .num 1)]) ∧
    lookupKey "gnews" wDoc = some (.obj [("b", .num 2)]) ∧
    ((merge_responses "aapl" none (some (.obj [("g", .num 8)])) "data" "tN" wFS =
        .ok (rawPath "data" "aapl",
          updateFS wFS (rawPath "data" "aapl")
            (.good (.obj (mergedDoc wDoc none (some (.obj [("g", .num 8)])) "tN")))) ∧
      lookupKey "history" (mergedDoc wDoc none (some (.obj [("g", .num 8)])) "tN") =
        some (.arr (histInit wDoc ++
          [.obj [("timestamp", .str "tN"), ("newsapi", .obj []),
                 ("gnews", .obj [("g", .num 8)])]])) ∧
      lookupKey "newsapi" (mergedDoc wDoc none (some (.obj [("g", .num 8)])) "tN") =
        some (.obj [("a", .num 1)])) ∧
    (merge_responses "aapl" (some (.obj [("n", .num 9)])) none "data" "tN" wFS =
        .ok (rawPath "data" "aapl",
          updateFS wFS (rawPath "data" "aapl")
            (.good (.obj (mergedDoc wDoc (some (.obj [("n", .num 9)])) none "tN")))) ∧
      lookupKey "history" (mergedDoc wDoc (some (.obj [("n", .num 9)])) none "tN") =
        some (.arr (histInit wDoc ++
          [.obj [("timestamp", .str "tN"), ("newsapi", .obj [("n", .num 9)]),
                 ("gnews", .obj [])]])) ∧
      lookupKey "gnews" (mergedDoc wDoc (some (.obj [("n", .num 9)])) none "tN") =
        some (.obj [("b", .num 2)])) ∧
    (merge_responses "aapl" none none "data" "tN" wFS =
        .ok (rawPath "data" "aapl",
          updateFS wFS (rawPath "data" "aapl")
            (.good (.obj (mergedDoc wDoc none none "tN")))) ∧
      lookupKey "history" (mergedDoc wDoc none none "tN") =
        some (.arr (histInit wDoc ++
          [.obj [("timestamp", .str "tN"), ("newsapi", .obj []), ("gnews", .obj [])]])) ∧
      lookupKey "newsapi" (mergedDoc wDoc none none "tN") = some (.obj [("a", .num 1)]) ∧
      lookupKey "gnews" (mergedDoc wDoc none none "tN") = some (.obj [("b", .num 2)]))) :=
  ⟨updateFS_same _ _ _, Or.inl rfl, rfl, rfl,
    history_entry_empty_slot "aapl" "data" "tN" wFS wDoc
      (.obj [("n", .num 9)]) (.obj [("g", .num 8)])
      (.obj [("a", .num 1)]) (.obj [("b", .num 2)])
      (updateFS_same _ _ _) (Or.inl rfl) rfl rfl⟩

/-- C10 (implicit): for every call to `merge_processed_data` where the target
file does not exist (or its contents fail to parse), the function writes
`processed_data` to the file verbatim as JSON: no `timestamp`, `company`,
`article_count` or `history` key is added or defaulted, so a `processed_data`
missing any of the document's expected keys produces a document missing
those keys. -/
theorem processed_first_write_verbatim (filename company now : String) (pd : Json) (fs : FS)
    (h : fs filename = none ∨ fs filename = some .bad) :
    merge_processed_data filename company pd now fs =
      .ok (filename, updateFS fs filename (.good pd)) ∧
    updateFS fs filename (.good pd) filename = some (.good pd) := by
  rcases h with h | h <;>
    exact ⟨by simp [merge_processed_data, h], updateFS_same _ _ _⟩

theorem processed_first_write_verbatim_witness :
    (emptyFS "out/AAPL.json" = none ∨ emptyFS "out/AAPL.json" = some .bad) ∧
    (merge_processed_data "out/AAPL.json" "AAPL" (.obj [("articles", .arr [])]) "tP" emptyFS =
      .ok ("out/AAPL.json", updateFS emptyFS "out/AAPL.json" (.good (.obj [("articles", .arr [])]))) ∧
    updateFS emptyFS "out/AAPL.json" (.good (.obj [("articles", .arr [])])) "out/AAPL.json" =
      some (.good (.obj [("articles", .arr [])]))) :=
  ⟨Or.inl rfl,
    processed_first_write_verbatim "out/AAPL.json" "AAPL" "tP" (.obj [("articles", .arr [])])
      emptyFS (Or.inl rfl)⟩

/-- `mergeDoc` only succeeds on mergeable documents. -/
theorem mergeDoc_ok_histOk (e : List (String × Json)) (napi gn : Option Json)
    (now : String) (d : List (String × Json))
    (h : mergeDoc e napi gn now = .ok d) : histOk e := by
  cases hh : lookupKey "history" e with
  | none => exact Or.inl hh
  | some j =>
    cases j with
    | arr l => exact Or.inr ⟨l, hh⟩
    | null => simp [mergeDoc, hh] at h
    | bool b => simp [mergeDoc, hh] at h
    | num n => simp [mergeDoc, hh] at h
    | str s => simp [mergeDoc, hh] at h
    | obj kvs => simp [mergeDoc, hh] at h

/-- C8: path derivation is deterministic and case-insensitive in the symbol:
for every directory `d` and symbols `s1`, `s2` with equal uppercasings, a
successful `merge_responses` under `s1` lands at the single path
`rawPath d s1`, which equals `rawPath d s2`; consequently
`load_raw_responses` under `s2` reads exactly the document the merge wrote. -/
theorem path_case_insensitive_round_trip (d s1 s2 : String) (napi gn : Option Json)
    (now : String) (fs : FS) (p : String) (fs' : FS)
    (hs : pyUpper s1 = pyUpper s2)
    (hm : merge_responses s1 napi gn d now fs = .ok (p, fs')) :
    p = rawPath d s1 ∧ rawPath d s2 = rawPath d s1 ∧
    ∃ j, fs' p = some (.good j) ∧ load_raw_responses s2 d fs' = .ok j := by
  have hpath : rawPath d s2 = rawPath d s1 := by simp [rawPath, hs]
  have key : ∀ (j : Json), p = rawPath d s1 →
      fs' = updateFS fs (rawPath d s1) (.good j) →
      p = rawPath d s1 ∧ rawPath d s2 = rawPath d s1 ∧
      ∃ j', fs' p = some (.good j') ∧ load_raw_responses s2 d fs' = .ok j' := by
    intro j hp hfs
    subst hp; subst hfs
    exact ⟨rfl, hpath, j, updateFS_same _ _ _, by
      simp [load_raw_responses, hpath, updateFS_same]⟩
  simp only [merge_responses] at hm
  cases hfc : fs (rawPath d s1) with
  | none =>
    rw [hfc] at hm
    simp [store_raw_responses] at hm
    exact key _ hm.1.symm hm.2.symm
  | some fc =>
    cases fc with
    | bad =>
      rw [hfc] at hm
      simp [store_raw_responses] at hm
      exact key _ hm.1.symm hm.2.symm
    | good j =>
      cases j with
      | obj e =>
        rw [hfc] at hm
        simp only [] at hm
        cases hmd : mergeDoc e napi gn now with
        | error ex => rw [hmd] at hm; simp [Except.map] at hm
        | ok dd =>
          rw [hmd] at hm
          simp [Except.map] at hm
          exact key _ hm.1.symm hm.2.symm
      | null => rw [hfc] at hm; simp at hm
      | bool b => rw [hfc] at hm; simp at hm
      | num n => rw [hfc] at hm; simp at hm
      | str s => rw [hfc] at hm; simp at hm
      | arr l => rw [hfc] at hm; simp at hm

theorem path_case_insensitive_round_trip_witness :
    pyUpper "aapl" = pyUpper "AaPl" ∧
    (rawPath "data" "aapl" = rawPath "data" "aapl" ∧
      rawPath "data" "AaPl" = rawPath "data" "aapl" ∧
      ∃ j, updateFS emptyFS (rawPath "data" "aapl")
            (.good (.obj (freshRawDoc "aapl" (some (.obj [("s", .str "ok")])) none "t")))
            (rawPath "data" "aapl") = some (.good j) ∧
        load_raw_responses "AaPl" "data"
          (updateFS emptyFS (rawPath "data" "aapl")
            (.good (.obj (freshRawDoc "aapl" (some (.obj [("s", .str "ok")])) none "t")))) =
          .ok j) :=
  ⟨by decide,
    path_case_insensitive_round_trip "data" "aapl" "AaPl" (some (.obj [("s", .str "ok")])) none
      "t" emptyFS (rawPath "data" "aapl")
      (updateFS emptyFS (rawPath "data" "aapl")
        (.good (.obj (freshRawDoc "aapl" (some (.obj [("s", .str "ok")])) none "t"))))
      (by decide) rfl⟩

/-- C7: round-trip — loading the document immediately after a successful
`merge_responses` yields top-level payload slots equal to the payloads
passed, except that slots passed as `None` hold their default: the empty
object on a first write (absent or unparseable file) and the prior stored
top-level value on a merge into an existing parsed document (`priorSlot`). -/
theorem merge_load_round_trip (stock dir now : String) (napi gn : Option Json)
    (fs : FS) (p : String) (fs' : FS)
    (hm : merge_responses stock napi gn dir now fs = .ok (p, fs')) :
    ∃ kvs, load_raw_responses stock dir fs' = .ok (.obj kvs) ∧
      (∀ v, napi = some v → lookupKey "newsapi" kvs = some v) ∧
      (∀ v, gn = some v → lookupKey "gnews" kvs = some v) ∧
      (napi = none → lookupKey "newsapi" kvs = priorSlot fs (rawPath dir stock) "newsapi") ∧
      (gn = none → lookupKey "gnews" kvs = priorSlot fs (rawPath dir stock) "gnews") := by
  simp only [merge_responses] at hm
  cases hfc : fs (rawPath dir stock) with
  | none =>
    rw [hfc] at hm
    simp [store_raw_responses] at hm
    obtain ⟨hp, hfs⟩ := hm
    refine ⟨freshRawDoc stock napi gn now, ?_, ?_, ?_, ?_, ?_⟩
    · simp [load_raw_responses, ← hfs, updateFS_same]
    · intro v hv; simp [freshRawDoc, lookupKey, hv]
    · intro v hv; simp [freshRawDoc, lookupKey, hv]
    · intro hv; simp [freshRawDoc, lookupKey, hv, priorSlot, hfc]
    · intro hv; simp [freshRawDoc, lookupKey, hv, priorSlot, hfc]
  | some fc =>
    cases fc with
    | bad =>
      rw [hfc] at hm
      simp [store_raw_responses] at hm
      obtain ⟨hp, hfs⟩ := hm
      refine ⟨freshRawDoc stock napi gn now, ?_, ?_, ?_, ?_, ?_⟩
      · simp [load_raw_responses, ← hfs, updateFS_same]
      · intro v hv; simp [freshRawDoc, lookupKey, hv]
      · intro v hv; simp [freshRawDoc, lookupKey, hv]
      · intro hv; simp [freshRawDoc, lookupKey, hv, priorSlot, hfc]
      · intro hv; simp [freshRawDoc, lookupKey, hv, priorSlot, hfc]
    | good j =>
      cases j with
      | obj e =>
        rw [hfc] at hm
        simp only [] at hm
        cases hmd : mergeDoc e napi gn now with
        | error ex => rw [hmd] at hm; simp [Except.map] at hm
        | ok dd =>
          have hh := mergeDoc_ok_histOk e napi gn now dd hmd
          have hdd : dd = mergedDoc e napi gn now := by
            have h2 := mergeDoc_eq e napi gn now hh
            rw [hmd] at h2
            exact Except.ok.inj h2
          rw [hmd] at hm
          simp [Except.map] at hm
          obtain ⟨hp, hfs⟩ := hm
          subst hdd
          refine ⟨mergedDoc e napi gn now, ?_, ?_, ?_, ?_, ?_⟩
          · simp [load_raw_responses, ← hfs, updateFS_same]
          · intro v hv
            subst hv
            simpa using mergedDoc_newsapi e (some v) gn now
          · intro v hv
            subst hv
            simpa using mergedDoc_gnews e napi (some v) now
          · intro hv
            subst hv
            simpa [priorSlot, hfc] using mergedDoc_newsapi e none gn now
          · intro hv
            subst hv
            simpa [priorSlot, hfc] using mergedDoc_gnews e napi none now
      | null => rw [hfc] at hm; simp at hm
      | bool b => rw [hfc] at hm; simp at hm
      | num n => rw [hfc] at hm; simp at hm
      | str s => rw [hfc] at hm; simp at hm
      | arr l => rw [hfc] at hm; simp at hm

theorem merge_load_round_trip_witness :
    merge_responses "aapl" none (some (.obj [("g2", .num 7)])) "data" "t2" wFS =
      .ok (rawPath "data" "aapl",
        updateFS wFS (rawPath "data" "aapl")
          (.good (.obj (mergedDoc wDoc none (some (.obj [("g2", .num 7)])) "t2")))) ∧
    (∃ kvs, load_raw_responses "aapl" "data"
        (updateFS wFS (rawPath "data" "aapl")
          (.good (.obj (mergedDoc wDoc none (some (.obj [("g2", .num 7)])) "t2")))) =
        .ok (.obj kvs) ∧
      (∀ v, (none : Option Json) = some v → lookupKey "newsapi" kvs = some v) ∧
      (∀ v, (some (.obj [("g2", .num 7)]) : Option Json) = some v →
        lookupKey "gnews" kvs = some v) ∧
      ((none : Option Json) = none →
        lookupKey "newsapi" kvs = priorSlot wFS (rawPath "data" "aapl") "newsapi") ∧
      ((some (.obj [("g2", .num 7)]) : Option Json) = none →
        lookupKey "gnews" kvs = priorSlot wFS (rawPath "data" "aapl") "gnews")) :=
  ⟨rfl,
    merge_load_round_trip "aapl" "data" "t2" none (some (.obj [("g2", .num 7)])) wFS
      (rawPath "data" "aapl")
      (updateFS wFS (rawPath "data" "aapl")
        (.good (.obj (mergedDoc wDoc none (some (.obj [("g2", .num 7)])) "t2")))) rfl⟩

/-- C1 counterexample: merging payloads R1 then R2 into the same fresh path
leaves `history` with TWO entries, not one — the second merge migrates the
flat document into a one-snapshot history and then also appends the new
payload entry itself.  The claim's asserted `history` length of 1 after two
merges is therefore false at this input. -/
theorem merge_twice_history_two_entries :
    ((do
      let r1 ← merge_responses "AAPL" (some (.obj [("k", .num 1)])) none "data" "t1" emptyFS
      let r2 ← merge_responses "AAPL" (some (.obj [("k", .num 2)])) none "data" "t2" r1.2
      load_raw_responses "AAPL" "data" r2.2).map historyLength = .ok (some 2)) ∧
    ((do
      let r1 ← merge_responses "AAPL" (some (.obj [("k", .num 1)])) none "data" "t1" emptyFS
      let r2 ← merge_responses "AAPL" (some (.obj [("k", .num 2)])) none "data" "t2" r1.2
      load_raw_responses "AAPL" "data" r2.2).map historyLength ≠ .ok (some 1)) := by
  have h1 : ((do
      let r1 ← merge_responses "AAPL" (some (.obj [("k", .num 1)])) none "data" "t1" emptyFS
      let r2 ← merge_responses "AAPL" (some (.obj [("k", .num 2)])) none "data" "t2" r1.2
      load_raw_responses "AAPL" "data" r2.2).map historyLength =
        (.ok (some 2) : Except PyErr (Option Nat))) := rfl
  refine ⟨h1, fun h => ?_⟩
  rw [h1] at h
  simp at h

/-- C1 (amended): starting from a fresh path, the first merge writes a flat
history-less document; every later merge appends exactly one entry to
`history`, namely the NEW payload entry (with the merge's own timestamp and
per-call `{}` defaults), and the merge that migrates a history-less document
additionally inserts the pre-merge snapshot first.  Hence after merges R1,
R2 the top-level `newsapi` is R2 and `history` has two entries
`[R1-snapshot, R2-entry]`; after a third merge R3 the top level is R3 and
`history` is `[R1-snapshot, R2-entry, R3-entry]`. -/
theorem merge_history_appends_new_entry (stock dir : String) (R1 R2 R3 : Json)
    (t1 t2 t3 : String) :
    merge_responses stock (some R1) none dir t1 emptyFS =
      .ok (rawPath dir stock,
        updateFS emptyFS (rawPath dir stock)
          (.good (.obj (freshRawDoc stock (some R1) none t1)))) ∧
    merge_responses stock (some R2) none dir t2
        (updateFS emptyFS (rawPath dir stock)
          (.good (.obj (freshRawDoc stock (some R1) none t1)))) =
      .ok (rawPath dir stock,
        updateFS (updateFS emptyFS (rawPath dir stock)
            (.good (.obj (freshRawDoc stock (some R1) none t1))))
          (rawPath dir stock)
          (.good (.obj
            [ ("timestamp", .str t2), ("stock", .str (pyUpper stock)), ("newsapi", R2)
            , ("gnews", .obj [])
            , ("history", .arr
                [ .obj [("timestamp", .str t1), ("newsapi", R1), ("gnews", .obj [])]
                , .obj [("timestamp", .str t2), ("newsapi", R2), ("gnews", .obj [])] ]) ]))) ∧
    merge_responses stock (some R3) none dir t3
        (updateFS (updateFS emptyFS (rawPath dir stock)
            (.good (.obj (freshRawDoc stock (some R1) none t1))))
          (rawPath dir stock)
          (.good (.obj
            [ ("timestamp", .str t2), ("stock", .str (pyUpper stock)), ("newsapi", R2)
            , ("gnews", .obj [])
            , ("history", .arr
                [ .obj [("timestamp", .str t1), ("newsapi", R1), ("gnews", .obj [])]
                , .obj [("timestamp", .str t2), ("newsapi", R2), ("gnews", .obj [])] ]) ]))) =
      .ok (rawPath dir stock,
        updateFS (updateFS (updateFS emptyFS (rawPath dir stock)
              (.good (.obj (freshRawDoc stock (some R1) none t1))))
            (rawPath dir stock)
            (.good (.obj
              [ ("timestamp", .str t2), ("stock", .str (pyUpper stock)), ("newsapi", R2)
              , ("gnews", .obj [])
              , ("history", .arr
                  [ .obj [("timestamp", .str t1), ("newsapi", R1), ("gnews", .obj [])]
                  , .obj [("timestamp", .str t2), ("newsapi", R2), ("gnews", .obj [])] ]) ])))
          (rawPath dir stock)
          (.good (.obj
            [ ("timestamp", .str t3), ("stock", .str (pyUpper stock)), ("newsapi", R3)
            , ("gnews", .obj [])
            , ("history", .arr
                [ .obj [("timestamp", .str t1), ("newsapi", R1), ("gnews", .obj [])]
                , .obj [("timestamp", .str t2), ("newsapi", R2), ("gnews", .obj [])]
                , .obj [("timestamp", .str t3), ("newsapi", R3), ("gnews", .obj [])] ]) ]))) := by
  refine ⟨?_, ?_, ?_⟩
  · simp [merge_responses, emptyFS, store_raw_responses]
  · simp [merge_responses, updateFS_same, mergeDoc, lookupKey, setKey, freshRawDoc,
      Except.map, Option.getD]
  · simp [merge_responses, updateFS_same, mergeDoc, lookupKey, setKey, freshRawDoc,
      Except.map, Option.getD]

theorem bindOk {α β : Type} (a : α) (f : α → Except String β) :
    (bind (Except.ok a) f : Except String β) = f a := rfl

theorem bindErr {α β : Type} (e : String) (f : α → Except String β) :
    (bind (Except.error e) f : Except String β) = .error e := rfl

theorem titleOk_asStr (o : Option Json) (h : titleOk o = true) :
    ∃ s, asStr (o.getD (.str "No title")) = .ok s := by
  cases o with
  | none => exact ⟨"No title", rfl⟩
  | some j => cases j <;> simp [titleOk] at h <;> exact ⟨_, rfl⟩

theorem optStrOk_field (o : Option Json) (h : optStrOk o = true) :
    ∃ v, asOptStrField o = .ok v := by
  cases o with
  | none => exact ⟨none, rfl⟩
  | some j => cases j <;> simp [optStrOk] at h <;> exact ⟨_, rfl⟩

theorem asSourceEntries_ok (s : List (String × Json))
    (h : s.all (fun kv => sourceValOk kv.2) = true) :
    ∃ l, asSourceEntries s = .ok l := by
  induction s with
  | nil => exact ⟨[], rfl⟩
  | cons kv rest ih =>
    rw [List.all_cons, Bool.and_eq_true] at h
    obtain ⟨l, hl⟩ := ih h.2
    have hv : ∃ v, asOptStr kv.2 = .ok v := by
      have h1 := h.1
      cases hkv : kv.2 <;> rw [hkv] at h1 <;> simp [sourceValOk] at h1 <;> exact ⟨_, rfl⟩
    obtain ⟨v, hv⟩ := hv
    exact ⟨(kv.1, v) :: l, by simp [asSourceEntries, hv, hl, bindOk]⟩

theorem sourceOk_asSource (o : Option Json) (h : sourceOk o = true) :
    ∃ v, asSource o = .ok v := by
  cases o with
  | none => exact ⟨none, rfl⟩
  | some j =>
    cases j with
    | null => exact ⟨none, rfl⟩
    | obj s =>
      obtain ⟨l, hl⟩ := asSourceEntries_ok s (by simpa [sourceOk] using h)
      exact ⟨some l, by simp [asSource, hl, Except.map]⟩
    | bool b => simp [sourceOk] at h
    | num n => simp [sourceOk] at h
    | str sv => simp [sourceOk] at h
    | arr l => simp [sourceOk] at h

/-- C6 counterexample: normalization is not total over all provider records —
a record whose `title` is present with JSON value `null` fails pydantic
validation (`None` is rejected for the required `str` field `title` in every
pydantic version), so `from_dict` raises instead of producing an Article. -/
theorem from_dict_null_title_fails :
    exceptIsOk (ArticleModel.from_dict [("title", Json.null)]) = false := rfl

/-- C6 (amended): normalization is total and defaulting on every provider
record whose present fields are well-typed — in particular on records missing
any subset of fields — and normalizing the record missing every field yields
an Article whose `title` is the literal `"No title"` and whose every other
field is `None`.  (A record with `title` present as `null` fails validation,
so totality does not extend to all mappings.) -/
theorem from_dict_total_on_welltyped (r : List (String × Json))
    (h : wellTypedRecord r = true) :
    exceptIsOk (ArticleModel.from_dict r) = true ∧
    ArticleModel.from_dict [] = .ok ⟨"No title", none, none, none, none, none⟩ := by
  refine ⟨?_, rfl⟩
  unfold wellTypedRecord at h
  simp only [Bool.and_eq_true] at h
  obtain ⟨⟨⟨⟨⟨h1, h2⟩, h3⟩, h4⟩, h5⟩, h6⟩ := h
  obtain ⟨t, ht⟩ := titleOk_asStr _ h1
  obtain ⟨d, hd⟩ := optStrOk_field _ h2
  obtain ⟨c, hc⟩ := optStrOk_field _ h3
  obtain ⟨u, hu⟩ := optStrOk_field _ h4
  obtain ⟨sv, hs⟩ := sourceOk_asSource _ h5
  obtain ⟨pa, hp⟩ := optStrOk_field _ h6
  simp [ArticleModel.from_dict, ht, hd, hc, hu, hs, hp, bindOk, exceptIsOk]

theorem from_dict_total_on_welltyped_witness :
    wellTypedRecord [("title", .str "Quarterly results")] = true ∧
    (exceptIsOk (ArticleModel.from_dict [("title", .str "Quarterly results")]) = true ∧
     ArticleModel.from_dict [] = .ok ⟨"No title", none, none, none, none, none⟩) :=
  ⟨rfl, from_dict_total_on_welltyped [("title", .str "Quarterly results")] rfl⟩

/-- C2 counterexample: normalizing a gnews record with no source does default
the name to `"Unknown"`, but the resulting Article does NOT carry a flattened
`source_name` string — its serialization has no `"source_name"` key and keeps
the nested one-key `"source"` object instead. -/
theorem gnews_article_keeps_nested_source :
    gnewsNormalize [] =
      .ok ⟨"No title", none, none, none, some [("name", some "Unknown")], none⟩ ∧
    jsonLookup
      (ArticleModel.to_dict
        ⟨"No title", none, none, none, some [("name", some "Unknown")], none⟩)
      "source_name" = none ∧
    jsonLookup
      (ArticleModel.to_dict
        ⟨"No title", none, none, none, some [("name", some "Unknown")], none⟩)
      "source" = some (.obj [("name", .str "Unknown")]) :=
  ⟨rfl, rfl, rfl⟩

/-- C2 (amended): for every gnews provider record whose nested source object
is absent or lacks a `name`, normalization defaults the name to `"Unknown"`
and rebuilds it as the nested one-key dict `{"name": ...}` on the Article's
`source` field (both providers share the identical `ArticleModel` shape);
the Article is not flattened — its serialized form keeps the nested
`"source"` object and has no `"source_name"` key. -/
theorem gnews_source_name_defaults_unknown (a : List (String × Json)) (m : ArticleModel)
    (hsrc : lookupKey "source" a = none ∨
      ∃ s, lookupKey "source" a = some (.obj s) ∧ lookupKey "name" s = none)
    (hok : gnewsNormalize a = .ok m) :
    m.source = some [("name", some "Unknown")] ∧
    jsonLookup m.to_dict "source" = some (.obj [("name", .str "Unknown")]) ∧
    jsonLookup m.to_dict "source_name" = none := by
  have hnm : gnewsSourceName a = .ok (.str "Unknown") := by
    rcases hsrc with h | ⟨s, h1, h2⟩
    · simp [gnewsSourceName, h]
    · simp [gnewsSourceName, h1, h2]
  unfold gnewsNormalize gnewsArticleData at hok
  rw [hnm, bindOk, bindOk] at hok
  unfold ArticleModel.from_dict at hok
  simp only [lookupKey] at hok
  simp only [String.reduceEq, if_false, if_true, reduceIte, Option.getD_some] at hok
  cases ht : asStr ((lookupKey "title" a).getD (.str "No title")) with
  | error e => rw [ht, bindErr] at hok; exact absurd hok (by simp)
  | ok t =>
    rw [ht, bindOk] at hok
    cases hd : asOptStrField (some ((lookupKey "description" a).getD .null)) with
    | error e => rw [hd, bindErr] at hok; exact absurd hok (by simp)
    | ok d =>
      rw [hd, bindOk] at hok
      cases hc : asOptStrField (some ((lookupKey "content" a).getD .null)) with
      | error e => rw [hc, bindErr] at hok; exact absurd hok (by simp)
      | ok c =>
        rw [hc, bindOk] at hok
        cases hu : asOptStrField (some ((lookupKey "url" a).getD .null)) with
        | error e => rw [hu, bindErr] at hok; exact absurd hok (by simp)
        | ok u =>
          rw [hu, bindOk] at hok
          rw [show asSource (some (.obj [("name", .str "Unknown")])) =
            .ok (some [("name", some "Unknown")]) from rfl, bindOk] at hok
          cases hp : asOptStrField (some ((lookupKey "publishedAt" a).getD .null)) with
          | error e => rw [hp, bindErr] at hok; exact absurd hok (by simp)
          | ok p =>
            rw [hp, bindOk] at hok
            injection hok with hok'
            subst hok'
            refine ⟨rfl, ?_, ?_⟩ <;>
              simp [ArticleModel.to_dict, jsonLookup, lookupKey, optStrJson]

theorem gnews_source_name_defaults_unknown_witness :
    (lookupKey "source" [("title", Json.str "T")] = none ∨
      ∃ s, lookupKey "source" [("title", Json.str "T")] = some (.obj s) ∧
        lookupKey "name" s = none) ∧
    gnewsNormalize [("title", Json.str "T")] =
      .ok ⟨"T", none, none, none, some [("name", some "Unknown")], none⟩ ∧
    ((⟨"T", none, none, none, some [("name", some "Unknown")], none⟩ : ArticleModel).source =
        some [("name", some "Unknown")] ∧
      jsonLookup
        (ArticleModel.to_dict ⟨"T", none, none, none, some [("name", some "Unknown")], none⟩)
        "source" = some (.obj [("name", .str "Unknown")]) ∧
      jsonLookup
        (ArticleModel.to_dict ⟨"T", none, none, none, some [("name", some "Unknown")], none⟩)
        "source_name" = none) :=
  ⟨Or.inl rfl, rfl,
    gnews_source_name_defaults_unknown [("title", Json.str "T")]
      ⟨"T", none, none, none, some [("name", some "Unknown")], none⟩ (Or.inl rfl) rfl⟩
